import Mathlib

/-!
Verification of the bitsd event-ingestion pipeline.

This file gives a shallow embedding of the command handlers in
`src/bitsd/listener/hooks.py` and the status-related request handlers in
`src/bitsd/server/handlers.py`, together with models of the Python
standard-library routines they call (`int`, `float`, `base64.b64decode`,
`str.decode('utf8')`).  The persistence layer (`bitsd.persistence.query`,
`session_scope`) and the notification sink (`bitsd.listener.notifier`) are
not part of the source tree under inspection; they are modelled from the
specification, as indicated by doc comments on the relevant definitions.
-/

namespace Bitsd

/-! ## Python standard-library models -/

/-- Python whitespace characters recognised by `int()` / `float()` stripping. -/
def pyIsSpace (c : Char) : Bool :=
  c = ' ' ∨ c = '\t' ∨ c = '\n' ∨ c = '\r' ∨ c = '\x0b' ∨ c = '\x0c'

/-- Decimal digit test. -/
def isDigitCh (c : Char) : Bool := '0' ≤ c ∧ c ≤ '9'

/-- Value of a decimal digit character. -/
def digitVal (c : Char) : Nat := c.toNat - '0'.toNat

/-- Value of a list of decimal digit characters, most significant first. -/
def digitsVal (cs : List Char) : Nat := cs.foldl (fun a c => 10 * a + digitVal c) 0

/-- Strip leading and trailing Python whitespace. -/
def stripWs (cs : List Char) : List Char :=
  ((cs.dropWhile pyIsSpace).reverse.dropWhile pyIsSpace).reverse

/-- Core of the model of Python `int(s)`: an optional sign followed by a
nonempty run of decimal digits. -/
def pyIntCore : List Char → Option Int
  | '+' :: rest => if rest ≠ [] ∧ rest.all isDigitCh then some (digitsVal rest) else none
  | '-' :: rest => if rest ≠ [] ∧ rest.all isDigitCh then some (-(digitsVal rest : Int)) else none
  | rest => if rest ≠ [] ∧ rest.all isDigitCh then some (digitsVal rest) else none

/-- Model of Python `int(s)` on a string in base 10: whitespace is stripped,
then an optional sign and a nonempty digit run are required; any other input
raises `ValueError`, modelled as `none`. -/
def pyInt (s : String) : Option Int := pyIntCore (stripWs s.toList)

/-- Model of a Python float value: a finite rational, an infinity, or NaN.
Only parse success or failure matters to the pipeline; the finite value is
kept exactly as a rational. -/
inductive PyFloat
  | finite (q : Rat)
  | inf
  | neginf
  | nan
deriving DecidableEq, Repr

/-- Negation of a Python float. -/
def PyFloat.neg : PyFloat → PyFloat
  | .finite q => .finite (-q)
  | .inf => .neginf
  | .neginf => .inf
  | .nan => .nan

/-- Case-insensitive comparison of a character list with a lowercase word. -/
def lowerEq (cs : List Char) (w : List Char) : Bool := cs.map Char.toLower = w

/-- Parse the mantissa of a float literal: digits, optionally followed by a
point and further digits; at least one digit must be present overall.
Returns the value and the unconsumed remainder. -/
def parseMantissa (cs : List Char) : Option (Rat × List Char) :=
  let ip := cs.takeWhile isDigitCh
  let r1 := cs.dropWhile isDigitCh
  match r1 with
  | '.' :: r2 =>
    let fp := r2.takeWhile isDigitCh
    let r3 := r2.dropWhile isDigitCh
    if ip = [] ∧ fp = [] then none
    else some ((digitsVal ip : Rat) + (digitsVal fp : Rat) / ((10 : Rat) ^ fp.length), r3)
  | _ => if ip = [] then none else some ((digitsVal ip : Rat), r1)

/-- Parse an optional signed decimal exponent body (after the `e`). -/
def parseExpDigits : List Char → Option Int
  | '+' :: r => if r ≠ [] ∧ r.all isDigitCh then some (digitsVal r) else none
  | '-' :: r => if r ≠ [] ∧ r.all isDigitCh then some (-(digitsVal r : Int)) else none
  | r => if r ≠ [] ∧ r.all isDigitCh then some (digitsVal r) else none

/-- Parse the exponent part of a float literal; the whole remainder must be
consumed. -/
def parseExp : List Char → Option Int
  | [] => some 0
  | 'e' :: r => parseExpDigits r
  | 'E' :: r => parseExpDigits r
  | _ => none

/-- Parse an unsigned Python float literal: `inf`, `infinity`, `nan`, or a
mantissa with an optional exponent. -/
def pyFloatUnsigned (cs : List Char) : Option PyFloat :=
  if lowerEq cs "inf".toList ∨ lowerEq cs "infinity".toList then some .inf
  else if lowerEq cs "nan".toList then some .nan
  else
    match parseMantissa cs with
    | none => none
    | some (m, rest) =>
      match parseExp rest with
      | none => none
      | some e => some (.finite (m * (10 : Rat) ^ e))

/-- Model of Python `float(s)`: whitespace stripped, optional sign, then an
unsigned float literal; anything else raises `ValueError`, modelled as
`none`. -/
def pyFloat (s : String) : Option PyFloat :=
  match stripWs s.toList with
  | '+' :: r => pyFloatUnsigned r
  | '-' :: r => (pyFloatUnsigned r).map PyFloat.neg
  | r => pyFloatUnsigned r

/-- Value of a standard-base64 alphabet character. -/
def b64val (c : Char) : Option Nat :=
  if 'A' ≤ c ∧ c ≤ 'Z' then some (c.toNat - 'A'.toNat)
  else if 'a' ≤ c ∧ c ≤ 'z' then some (c.toNat - 'a'.toNat + 26)
  else if '0' ≤ c ∧ c ≤ '9' then some (c.toNat - '0'.toNat + 52)
  else if c = '+' then some 62
  else if c = '/' then some 63
  else none

/-- Decode a run of 6-bit base64 values into 8-bit bytes: complete groups of
four values give three bytes; a trailing group of two or three values (the
padded final quantum) gives one or two bytes. -/
def b64bytes : List Nat → List Nat
  | a :: b :: c :: d :: rest =>
    (a * 4 + b / 16) :: ((b % 16) * 16 + c / 4) :: ((c % 4) * 64 + d) :: b64bytes rest
  | [a, b] => [a * 4 + b / 16]
  | [a, b, c] => [a * 4 + b / 16, (b % 16) * 16 + c / 4]
  | _ => []

/-- Model of Python 2 `base64.b64decode(s)`: characters outside the alphabet
and padding are discarded, the remaining length must be a multiple of four
with at most two `=` padding characters at the very end; otherwise a
`TypeError` (incorrect padding) is raised, modelled as `none`. -/
def b64decode (s : String) : Option (List Nat) :=
  let cs := s.toList.filter (fun c => (b64val c).isSome ∨ c = '=')
  let data := cs.takeWhile (fun c => c ≠ '=')
  let pad := cs.dropWhile (fun c => c ≠ '=')
  if cs.length % 4 ≠ 0 ∨ ¬ pad.all (fun c => c = '=') ∨ 2 < pad.length then none
  else some (b64bytes (data.filterMap b64val))

/-- UTF-8 continuation byte test. -/
def isCont (b : Nat) : Bool := 0x80 ≤ b ∧ b ≤ 0xBF

/-- Model of Python `bytes.decode('utf8')`: strict UTF-8 decoding of a byte
sequence into a list of code points; an invalid sequence raises
`UnicodeDecodeError`, modelled as `none`. -/
def utf8decode : List Nat → Option (List Nat)
  | [] => some []
  | b :: rest =>
    if b ≤ 0x7F then (utf8decode rest).map (fun t => b :: t)
    else if 0xC2 ≤ b ∧ b ≤ 0xDF then
      match rest with
      | b2 :: r =>
        if isCont b2 then (utf8decode r).map (fun t => ((b - 0xC0) * 0x40 + (b2 - 0x80)) :: t)
        else none
      | [] => none
    else if 0xE0 ≤ b ∧ b ≤ 0xEF then
      match rest with
      | b2 :: b3 :: r =>
        if isCont b2 ∧ isCont b3 ∧ (b ≠ 0xE0 ∨ 0xA0 ≤ b2) then
          (utf8decode r).map
            (fun t => ((b - 0xE0) * 0x1000 + (b2 - 0x80) * 0x40 + (b3 - 0x80)) :: t)
        else none
      | _ => none
    else if 0xF0 ≤ b ∧ b ≤ 0xF4 then
      match rest with
      | b2 :: b3 :: b4 :: r =>
        if isCont b2 ∧ isCont b3 ∧ isCont b4 ∧ (b ≠ 0xF0 ∨ 0x90 ≤ b2) ∧ (b ≠ 0xF4 ∨ b2 ≤ 0x8F) then
          (utf8decode r).map
            (fun t =>
              ((b - 0xF0) * 0x40000 + (b2 - 0x80) * 0x1000 + (b3 - 0x80) * 0x40 + (b4 - 0x80)) :: t)
        else none
      | _ => none
    else none

/-- Model of Python 2 `repr` on a simple string, as used by the `{!r}`
format directive in the log calls. -/
def pyRepr (s : String) : String := "'" ++ s ++ "'"

/-! ## Data model

Modelled from the spec: the persistence models module is not under the
inspected sources, so the record shapes follow §3 of the specification
(every persisted event carries a server-assigned timestamp, assigned at
append time). -/

/-- Status values, `Status.OPEN` and `Status.CLOSED` in the source. -/
inductive SValue
  | OPEN
  | CLOSED
deriving DecidableEq, Repr

/-- Modelled from the spec: the textual value of a status, used in log and
page messages (`Status.OPEN` / `Status.CLOSED` render as `open` /
`closed`). -/
def SValue.str : SValue → String
  | .OPEN => "open"
  | .CLOSED => "closed"

/-- A persisted temperature sample. -/
structure TemperatureRec where
  value : PyFloat
  sensor : Int
  modified_by : String
  timestamp : Nat
deriving DecidableEq, Repr

/-- A persisted status change. -/
structure StatusRec where
  value : SValue
  modified_by : String
  timestamp : Nat
deriving DecidableEq, Repr

/-- A persisted chat message; the text is the list of decoded code points. -/
structure MessageRec where
  author : String
  text : List Nat
  timestamp : Nat
deriving DecidableEq, Repr

/-- The Durable Log Store state: per-kind lists of persisted records, newest
first, plus the clock used to assign server-side timestamps at append
time. -/
structure Store where
  temperatures : List TemperatureRec
  statuses : List StatusRec
  messages : List MessageRec
  clock : Nat
deriving DecidableEq, Repr

/-- The empty Durable Log Store. -/
def emptyStore : Store := { temperatures := [], statuses := [], messages := [], clock := 0 }

/-- Environment of a pipeline invocation: whether the Durable Log Store
append succeeds (an integrity conflict from a race makes it fail), whether
the External Notification Sink delivery fails internally, and the set of
user names known to the user store. -/
structure Env where
  appendOk : Bool
  sinkFails : Bool
  knownUsers : List String
deriving DecidableEq, Repr

/-- A call made to the External Notification Sink. -/
inductive SinkCall
  | sendStatus (value : SValue)
  | sendMessage (text : List Nat)
  | sendSound (id : Int)
deriving DecidableEq, Repr

/-- A sink call together with whether its delivery succeeded. -/
structure SinkEvent where
  call : SinkCall
  delivered : Bool
deriving DecidableEq, Repr

/-- An event handed to the Subscriber Registry & Broadcaster
(`broadcast(x.jsondict())` in the source); the serialization itself is
outside this embedding, so the persisted record is recorded. -/
inductive Broadcast
  | temp (t : TemperatureRec)
  | status (s : StatusRec)
  | message (m : MessageRec)
deriving DecidableEq, Repr

/-- Python exceptions that can escape a handler in this embedding. -/
inductive PyExn
  | integrityError
  | unicodeDecodeError
deriving DecidableEq, Repr

/-- Outcome of one handler invocation: the store after the call (unchanged
when the session rolled back), the broadcasts emitted, the sink calls made,
the log lines written, and the exception propagated to the caller, if
any. -/
structure Result where
  store : Store
  broadcasts : List Broadcast
  sink : List SinkEvent
  logs : List String
  exn : Option PyExn
deriving DecidableEq, Repr

/-! ## Spec-modelled collaborators

The modules `bitsd.persistence.query`, `bitsd.persistence.engine` and
`bitsd.listener.notifier` are not under the inspected sources; the
definitions below model them from the specification (§6: `append(event) ->
persistedEvent`, `mostRecent(kind, 1)`, `resolve(identifier)`, and the
fire-and-forget notifier whose failures are swallowed internally). -/

/-- Modelled from the spec: `query.get_current_status(session)` returns the
most recently persisted status, or `None` when none exists. -/
def get_current_status (st : Store) : Option StatusRec := st.statuses.head?

/-- Modelled from the spec: `query.log_status(session, value, modified_by)`
appends a status change, assigning the server-side timestamp, and returns
the persisted event. -/
def log_status (st : Store) (value : SValue) (modified_by : String) : StatusRec × Store :=
  let srec : StatusRec := { value := value, modified_by := modified_by, timestamp := st.clock }
  (srec, { st with statuses := srec :: st.statuses, clock := st.clock + 1 })

/-- Modelled from the spec: `query.log_temperature(session, value, sensor,
modified_by)` appends a temperature sample and returns the persisted
event. -/
def log_temperature (st : Store) (value : PyFloat) (sensor : Int) (modified_by : String) :
    TemperatureRec × Store :=
  let trec : TemperatureRec :=
    { value := value, sensor := sensor, modified_by := modified_by, timestamp := st.clock }
  (trec, { st with temperatures := trec :: st.temperatures, clock := st.clock + 1 })

/-- Modelled from the spec: `query.log_message(session, user, text)` appends
a chat message and returns the persisted event. -/
def log_message (st : Store) (author : String) (text : List Nat) : MessageRec × Store :=
  let mrec : MessageRec := { author := author, text := text, timestamp := st.clock }
  (mrec, { st with messages := mrec :: st.messages, clock := st.clock + 1 })

/-- Modelled from the spec: `query.get_user(session, name)` resolves a user
name against the user store, returning `None` for an unknown user. -/
def get_user (env : Env) (name : String) : Option String :=
  if name ∈ env.knownUsers then some name else none

/-- Modelled from the spec: `notifier.send_status` is fire-and-forget; a
delivery failure is logged and swallowed inside the sink call and never
raises. -/
def send_status (env : Env) (value : SValue) : SinkEvent :=
  { call := .sendStatus value, delivered := !env.sinkFails }

/-- Modelled from the spec: `notifier.send_message`, fire-and-forget as
`send_status`. -/
def send_message (env : Env) (text : List Nat) : SinkEvent :=
  { call := .sendMessage text, delivered := !env.sinkFails }

/-- Modelled from the spec: `notifier.send_sound`, fire-and-forget as
`send_status`. -/
def send_sound (env : Env) (id : Int) : SinkEvent :=
  { call := .sendSound id, delivered := !env.sinkFails }

/-! ## Command handlers (`bitsd/listener/hooks.py`)

Each handler mirrors the Python control flow.  `session_scope()` commits on
normal exit and rolls back when an exception escapes its body; an append
that fails (modelled by `Env.appendOk = false`) raises `IntegrityError`
inside the session, so the store is left unchanged and the exception
propagates to the caller (no handler in `hooks.py` catches it). -/

/-- Embedding of `hooks.handle_temperature_command(sensorid, value)`. -/
def handle_temperature_command (env : Env) (st : Store) (sensorid value : String) : Result :=
  let logs0 := ["Received temperature: sensorid=" ++ sensorid ++ ", value=" ++ value]
  match pyInt sensorid, pyFloat value with
  | some sid, some v =>
    if env.appendOk then
      let (temp, st1) := log_temperature st v sid "BITS"
      { store := st1, broadcasts := [Broadcast.temp temp], sink := [], logs := logs0, exn := none }
    else
      { store := st, broadcasts := [], sink := [], logs := logs0,
        exn := some PyExn.integrityError }
  | _, _ =>
    { store := st, broadcasts := [], sink := [],
      logs := logs0 ++ ["Wrong type for parameters in temperature command!"], exn := none }

/-- Embedding of `hooks.handle_status_command(status)`. -/
def handle_status_command (env : Env) (st : Store) (status : String) : Result :=
  let logs0 := ["Received status: " ++ status]
  match pyInt status with
  | none =>
    { store := st, broadcasts := [], sink := [],
      logs := logs0 ++ ["Wrong type for parameters in temperature command"], exn := none }
  | some n =>
    if n ≠ 0 ∧ n ≠ 1 then
      { store := st, broadcasts := [], sink := [],
        logs := logs0 ++ ["Non existent status " ++ toString n ++ ", ignoring."], exn := none }
    else
      let textstatus := if n = 1 then SValue.OPEN else SValue.CLOSED
      let curstatus := get_current_status st
      if curstatus = none ∨ curstatus.map StatusRec.value ≠ some textstatus then
        if env.appendOk then
          let (srec, st1) := log_status st textstatus "BITS"
          { store := st1, broadcasts := [Broadcast.status srec],
            sink := [send_status env textstatus], logs := logs0, exn := none }
        else
          { store := st, broadcasts := [], sink := [], logs := logs0,
            exn := some PyExn.integrityError }
      else
        { store := st, broadcasts := [], sink := [],
          logs := logs0 ++ ["BITS already open/closed! Ignoring."], exn := none }

/-- Embedding of `hooks.handle_enter_command(userid)`: validation, then a
log-only stub. -/
def handle_enter_command (st : Store) (userid : String) : Result :=
  let logs0 := ["Received enter command: id=" ++ userid]
  match pyInt userid with
  | none =>
    { store := st, broadcasts := [], sink := [],
      logs := logs0 ++ ["Wrong type for parameters in temperature command!"], exn := none }
  | some _ =>
    { store := st, broadcasts := [], sink := [],
      logs := logs0 ++ ["handle_enter_command not implemented."], exn := none }

/-- Embedding of `hooks.handle_leave_command(userid)`: validation, then a
log-only stub. -/
def handle_leave_command (st : Store) (userid : String) : Result :=
  let logs0 := ["Received leave command: id=" ++ userid]
  match pyInt userid with
  | none =>
    { store := st, broadcasts := [], sink := [],
      logs := logs0 ++ ["Wrong type for parameters in temperature command!"], exn := none }
  | some _ =>
    { store := st, broadcasts := [], sink := [],
      logs := logs0 ++ ["handle_leave_command not implemented."], exn := none }

/-- Embedding of `hooks.handle_message_command(message)`.  Only the base64
decode is guarded by the `try`/`except TypeError`; the UTF-8 decode on the
next line is unguarded, so its `UnicodeDecodeError` propagates to the
caller.  The `return` taken when the author is unknown exits the function
from inside the session, skipping the `notifier.send_message` call placed
after the `with` block. -/
def handle_message_command (env : Env) (st : Store) (message : String) : Result :=
  let logs0 := ["Received message command: message=" ++ pyRepr message]
  match b64decode message with
  | none =>
    { store := st, broadcasts := [], sink := [],
      logs := logs0 ++ ["Received message is not valid base64: " ++ pyRepr message], exn := none }
  | some decodedmex =>
    match utf8decode decodedmex with
    | none =>
      { store := st, broadcasts := [], sink := [], logs := logs0,
        exn := some PyExn.unicodeDecodeError }
    | some text =>
      match get_user env "BITS" with
      | none =>
        { store := st, broadcasts := [], sink := [],
          logs := logs0 ++ ["Non-existent user None, not logging message."], exn := none }
      | some user =>
        if env.appendOk then
          let (mrec, st1) := log_message st user text
          { store := st1, broadcasts := [Broadcast.message mrec],
            sink := [send_message env text], logs := logs0, exn := none }
        else
          { store := st, broadcasts := [], sink := [], logs := logs0,
            exn := some PyExn.integrityError }

/-- Embedding of `hooks.handle_sound_command(soundid)`. -/
def handle_sound_command (env : Env) (st : Store) (soundid : String) : Result :=
  let logs0 := ["Received sound command: id=" ++ soundid]
  match pyInt soundid with
  | none =>
    { store := st, broadcasts := [], sink := [],
      logs := logs0 ++ ["Wrong type for parameters in temperature command!"], exn := none }
  | some n =>
    { store := st, broadcasts := [], sink := [send_sound env n], logs := logs0, exn := none }

/-! ## Server handlers (`bitsd/server/handlers.py`) -/

/-- Embedding of `StatusPageHandler.get`: the single character written to
the response. -/
def statusPage_get (st : Store) : String :=
  match get_current_status st with
  | some s => if s.value = SValue.OPEN then "1" else "0"
  | none => "0"

/-- The value `textstatus` computed by `AdminPageHandler.change_status`:
`CLOSED` when no status was ever persisted, else the opposite of the
current value. -/
def change_status_target (st : Store) : SValue :=
  match get_current_status st with
  | none => SValue.CLOSED
  | some c => if c.value = SValue.CLOSED then SValue.OPEN else SValue.CLOSED

/-- Outcome of `AdminPageHandler.change_status`: the pipeline outcome plus
the admin page message rendered by the `finally` block. -/
structure AdminResult where
  result : Result
  rendered : Option String
deriving DecidableEq, Repr

/-- Embedding of `AdminPageHandler.change_status`.  The handler reads the
current status, computes the opposite value (or `CLOSED` on an empty store)
and appends it unconditionally; an `IntegrityError` from the append is
caught, an error message is rendered, and the exception is re-raised, so no
broadcast and no sink call happen and the session rolls back. -/
def change_status (env : Env) (st : Store) : AdminResult :=
  let textstatus := change_status_target st
  let logs0 := ["Change of BITS to status=" ++ textstatus.str ++ " from web interface."]
  if env.appendOk then
    let (srec, st1) := log_status st textstatus "web"
    { result :=
        { store := st1, broadcasts := [Broadcast.status srec],
          sink := [send_status env textstatus], logs := logs0, exn := none },
      rendered := some ("Ora la sede è " ++ textstatus.str ++ ".") }
  else
    { result :=
        { store := st, broadcasts := [], sink := [],
          logs := logs0 ++ ["Status changed too quickly, not logged."],
          exn := some PyExn.integrityError },
      rendered := some "Errore: modifica troppo veloce!" }

/-! ## Derived runs used by the claims -/

/-- Run a list of raw status commands through `handle_status_command`,
threading the store. -/
def statusSeq (env : Env) (st : Store) (cmds : List String) : Store :=
  cmds.foldl (fun s c => (handle_status_command env s c).store) st

/-- Run `n` submissions of the raw command `status("1")`, each
read-decide-append block executed atomically, threading the store.
Modelled from the spec: §5 requires the read-decide-append sequence to run
under a critical section, so any interleaving of `n` concurrent
submissions is some serialization of the `n` atomic blocks; the blocks are
identical, so every serialization is this iteration. -/
def statusRepeat (env : Env) (st : Store) : Nat → Store
  | 0 => st
  | n + 1 => statusRepeat env ((handle_status_command env st "1").store) n

/-- A convenient concrete environment: appends succeed, the sink delivers,
and the system user `BITS` is known. -/
def env0 : Env := { appendOk := true, sinkFails := false, knownUsers := ["BITS"] }

/-! ## Helper lemmas -/

lemma pyInt_one : pyInt "1" = some 1 := rfl

lemma pyInt_zero : pyInt "0" = some 0 := rfl

/-- Store transformation of one `status("1")` submission when appends
succeed: append an OPEN record unless the current status is already
OPEN. -/
lemma handle_status_one_store (env : Env) (st : Store) (hok : env.appendOk = true) :
    (handle_status_command env st "1").store =
      if (get_current_status st).map StatusRec.value = some SValue.OPEN then st
      else
        { st with
          statuses :=
            { value := SValue.OPEN, modified_by := "BITS", timestamp := st.clock } :: st.statuses,
          clock := st.clock + 1 } := by
  cases hc : get_current_status st with
  | none => simp [handle_status_command, pyInt_one, hc, hok, log_status]
  | some c =>
    by_cases hv : c.value = SValue.OPEN
    · simp [handle_status_command, pyInt_one, hc, hv, hok]
    · simp [handle_status_command, pyInt_one, hc, hv, hok, log_status]

/-- Repeating `status("1")` on a store whose current status is OPEN changes
nothing. -/
lemma statusRepeat_stable (env : Env) (m : Nat) (s : Store) (hok : env.appendOk = true)
    (hcur : (get_current_status s).map StatusRec.value = some SValue.OPEN) :
    statusRepeat env s m = s := by
  induction m with
  | zero => rfl
  | succ k ih =>
    have hstep : (handle_status_command env s "1").store = s := by
      rw [handle_status_one_store env s hok, if_pos hcur]
    simpa [statusRepeat, hstep] using ih

/-! ## Claims -/

/-- C6: for every sound command with a parseable integer id, no record is
persisted and no registry broadcast is emitted; the only effect is a single
notification-sink call carrying that id. -/
theorem sound_command_ephemeral (env : Env) (st : Store) (soundid : String) (n : Int)
    (hp : pyInt soundid = some n) :
    (handle_sound_command env st soundid).store = st ∧
    (handle_sound_command env st soundid).broadcasts = [] ∧
    (handle_sound_command env st soundid).sink = [send_sound env n] ∧
    (handle_sound_command env st soundid).exn = none := by
  simp [handle_sound_command, hp]

theorem sound_command_ephemeral_witness :
    (handle_sound_command env0 emptyStore "3").store = emptyStore ∧
    (handle_sound_command env0 emptyStore "3").broadcasts = [] ∧
    (handle_sound_command env0 emptyStore "3").sink = [send_sound env0 3] ∧
    (handle_sound_command env0 emptyStore "3").exn = none :=
  sound_command_ephemeral env0 emptyStore "3" 3 rfl

/-- C7: for every enter or leave command, the userId is validated as a
base-10 integer; malformed input is rejected with no effect, and a
well-formed command is a deliberate log-only no-op: no persistence, no
broadcast, no notification-sink call either way, with the log lines
distinguishing the rejection from the not-implemented stub. -/
theorem enter_leave_noop (st : Store) (userid : String) :
    ((handle_enter_command st userid).store = st ∧
     (handle_enter_command st userid).broadcasts = [] ∧
     (handle_enter_command st userid).sink = [] ∧
     (handle_enter_command st userid).exn = none ∧
     (handle_leave_command st userid).store = st ∧
     (handle_leave_command st userid).broadcasts = [] ∧
     (handle_leave_command st userid).sink = [] ∧
     (handle_leave_command st userid).exn = none) ∧
    (pyInt userid = none →
      (handle_enter_command st userid).logs =
        ["Received enter command: id=" ++ userid,
         "Wrong type for parameters in temperature command!"] ∧
      (handle_leave_command st userid).logs =
        ["Received leave command: id=" ++ userid,
         "Wrong type for parameters in temperature command!"]) ∧
    (∀ n, pyInt userid = some n →
      (handle_enter_command st userid).logs =
        ["Received enter command: id=" ++ userid, "handle_enter_command not implemented."] ∧
      (handle_leave_command st userid).logs =
        ["Received leave command: id=" ++ userid, "handle_leave_command not implemented."]) := by
  refine ⟨?_, ?_, ?_⟩
  · cases hp : pyInt userid <;> simp [handle_enter_command, handle_leave_command, hp]
  · intro hp; simp [handle_enter_command, handle_leave_command, hp]
  · intro n hp; simp [handle_enter_command, handle_leave_command, hp]

theorem enter_leave_noop_witness :
    ((handle_enter_command emptyStore "x").logs =
       ["Received enter command: id=" ++ "x",
        "Wrong type for parameters in temperature command!"] ∧
     (handle_leave_command emptyStore "x").logs =
       ["Received leave command: id=" ++ "x",
        "Wrong type for parameters in temperature command!"]) ∧
    ((handle_enter_command emptyStore "5").logs =
       ["Received enter command: id=" ++ "5", "handle_enter_command not implemented."] ∧
     (handle_leave_command emptyStore "5").logs =
       ["Received leave command: id=" ++ "5", "handle_leave_command not implemented."]) :=
  ⟨(enter_leave_noop emptyStore "x").2.1 rfl,
   (enter_leave_noop emptyStore "5").2.2 5 rfl⟩

/-- C9: the status page query returns the single character 1 exactly when a
current status exists and its value is OPEN, and returns 0 both when the
current status is CLOSED and when no status was ever persisted. -/
theorem status_page_digit (st : Store) :
    (statusPage_get st = "1" ↔
      ∃ s, get_current_status st = some s ∧ s.value = SValue.OPEN) ∧
    (statusPage_get st = "0" ↔
      ¬ ∃ s, get_current_status st = some s ∧ s.value = SValue.OPEN) := by
  unfold statusPage_get
  cases h : get_current_status st with
  | none => simp [h]
  | some s => cases hv : s.value <;> simp [h, hv]

/-- C5: a message command whose author cannot be resolved against the user
store is dropped entirely: nothing is persisted, nothing is broadcast, and
no notification-sink call is made. -/
theorem unknown_author_drops (env : Env) (st : Store) (message : String)
    (bs text : List Nat)
    (hb : b64decode message = some bs) (hu8 : utf8decode bs = some text)
    (hu : get_user env "BITS" = none) :
    (handle_message_command env st message).store = st ∧
    (handle_message_command env st message).broadcasts = [] ∧
    (handle_message_command env st message).sink = [] ∧
    (handle_message_command env st message).exn = none := by
  simp [handle_message_command, hb, hu8, hu]

theorem unknown_author_drops_witness :
    (handle_message_command
        { appendOk := true, sinkFails := false, knownUsers := [] } emptyStore "aGk=").store =
      emptyStore ∧
    (handle_message_command
        { appendOk := true, sinkFails := false, knownUsers := [] } emptyStore "aGk=").broadcasts =
      [] ∧
    (handle_message_command
        { appendOk := true, sinkFails := false, knownUsers := [] } emptyStore "aGk=").sink = [] ∧
    (handle_message_command
        { appendOk := true, sinkFails := false, knownUsers := [] } emptyStore "aGk=").exn = none :=
  unknown_author_drops { appendOk := true, sinkFails := false, knownUsers := [] }
    emptyStore "aGk=" [104, 105] [104, 105] rfl rfl rfl

/-- C1: for every command kind that persists (temperature, status, message,
and the admin status-change path), a broadcast is emitted only if the
append to the durable store succeeded: when persistence fails, no broadcast
for that event occurs and the store is unchanged. -/
theorem no_broadcast_without_persistence (env : Env) (st : Store)
    (sensorid value status message : String) (h : env.appendOk = false) :
    (handle_temperature_command env st sensorid value).broadcasts = [] ∧
    (handle_temperature_command env st sensorid value).store = st ∧
    (handle_status_command env st status).broadcasts = [] ∧
    (handle_status_command env st status).store = st ∧
    (handle_message_command env st message).broadcasts = [] ∧
    (handle_message_command env st message).store = st ∧
    (change_status env st).result.broadcasts = [] ∧
    (change_status env st).result.store = st := by
  refine ⟨?_, ?_, ?_, ?_, ?_, ?_, ?_, ?_⟩
  · cases hp : pyInt sensorid <;> cases hv : pyFloat value <;>
      simp [handle_temperature_command, hp, hv, h]
  · cases hp : pyInt sensorid <;> cases hv : pyFloat value <;>
      simp [handle_temperature_command, hp, hv, h]
  · cases hp : pyInt status with
    | none => simp [handle_status_command, hp]
    | some n => simp only [handle_status_command, hp]; split_ifs <;> simp_all
  · cases hp : pyInt status with
    | none => simp [handle_status_command, hp]
    | some n => simp only [handle_status_command, hp]; split_ifs <;> simp_all
  · cases hb : b64decode message with
    | none => simp [handle_message_command, hb]
    | some bs =>
      cases hu8 : utf8decode bs with
      | none => simp [handle_message_command, hb, hu8]
      | some text =>
        cases hu : get_user env "BITS" <;> simp [handle_message_command, hb, hu8, hu, h]
  · cases hb : b64decode message with
    | none => simp [handle_message_command, hb]
    | some bs =>
      cases hu8 : utf8decode bs with
      | none => simp [handle_message_command, hb, hu8]
      | some text =>
        cases hu : get_user env "BITS" <;> simp [handle_message_command, hb, hu8, hu, h]
  · simp [change_status, h]
  · simp [change_status, h]

theorem no_broadcast_without_persistence_witness :
    (handle_temperature_command { appendOk := false, sinkFails := false, knownUsers := ["BITS"] }
      emptyStore "12" "22.5").broadcasts = [] ∧
    (handle_temperature_command { appendOk := false, sinkFails := false, knownUsers := ["BITS"] }
      emptyStore "12" "22.5").store = emptyStore ∧
    (handle_status_command { appendOk := false, sinkFails := false, knownUsers := ["BITS"] }
      emptyStore "1").broadcasts = [] ∧
    (handle_status_command { appendOk := false, sinkFails := false, knownUsers := ["BITS"] }
      emptyStore "1").store = emptyStore ∧
    (handle_message_command { appendOk := false, sinkFails := false, knownUsers := ["BITS"] }
      emptyStore "aGk=").broadcasts = [] ∧
    (handle_message_command { appendOk := false, sinkFails := false, knownUsers := ["BITS"] }
      emptyStore "aGk=").store = emptyStore ∧
    (change_status { appendOk := false, sinkFails := false, knownUsers := ["BITS"] }
      emptyStore).result.broadcasts = [] ∧
    (change_status { appendOk := false, sinkFails := false, knownUsers := ["BITS"] }
      emptyStore).result.store = emptyStore :=
  no_broadcast_without_persistence
    { appendOk := false, sinkFails := false, knownUsers := ["BITS"] }
    emptyStore "12" "22.5" "1" "aGk=" rfl

/-- C2, counterexample: the message command with payload `/w==` is valid
base64 decoding to the byte 255, which is not valid UTF-8; the handler does
not return normally — a UnicodeDecodeError escapes to the caller, because
the decode on line 111 of hooks.py is outside the try/except. -/
theorem message_invalid_utf8_raises :
    (handle_message_command env0 emptyStore "/w==").exn = some PyExn.unicodeDecodeError :=
  rfl

/-- C2, amended: for malformed commands — non-numeric sensorId or value,
non-integer or out-of-range status, invalid base64 — the handler returns
normally with zero persistence, zero broadcast and zero sink calls; for a
message whose base64-decoded bytes are not valid UTF-8, zero persistence
and zero broadcast and zero sink calls likewise occur, but the handler does
not return normally: a UnicodeDecodeError propagates to the caller. -/
theorem malformed_commands_amended (env : Env) (st : Store) :
    (∀ sensorid value, pyInt sensorid = none ∨ pyFloat value = none →
      (handle_temperature_command env st sensorid value).store = st ∧
      (handle_temperature_command env st sensorid value).broadcasts = [] ∧
      (handle_temperature_command env st sensorid value).sink = [] ∧
      (handle_temperature_command env st sensorid value).exn = none) ∧
    (∀ status, (∀ n, pyInt status = some n → n ≠ 0 ∧ n ≠ 1) →
      (handle_status_command env st status).store = st ∧
      (handle_status_command env st status).broadcasts = [] ∧
      (handle_status_command env st status).sink = [] ∧
      (handle_status_command env st status).exn = none) ∧
    (∀ message, b64decode message = none →
      (handle_message_command env st message).store = st ∧
      (handle_message_command env st message).broadcasts = [] ∧
      (handle_message_command env st message).sink = [] ∧
      (handle_message_command env st message).exn = none) ∧
    (∀ message bs, b64decode message = some bs → utf8decode bs = none →
      (handle_message_command env st message).store = st ∧
      (handle_message_command env st message).broadcasts = [] ∧
      (handle_message_command env st message).sink = [] ∧
      (handle_message_command env st message).exn = some PyExn.unicodeDecodeError) := by
  refine ⟨?_, ?_, ?_, ?_⟩
  · rintro sensorid value (hp | hv)
    · simp [handle_temperature_command, hp]
    · cases hp : pyInt sensorid <;> simp [handle_temperature_command, hp, hv]
  · intro status hn
    cases hp : pyInt status with
    | none => simp [handle_status_command, hp]
    | some n =>
      have := hn n hp
      simp [handle_status_command, hp, this]
  · intro message hb
    simp [handle_message_command, hb]
  · intro message bs hb hu8
    simp [handle_message_command, hb, hu8]

theorem malformed_commands_amended_witness :
    ((handle_temperature_command env0 emptyStore "x" "22.5").store = emptyStore ∧
     (handle_temperature_command env0 emptyStore "x" "22.5").broadcasts = [] ∧
     (handle_temperature_command env0 emptyStore "x" "22.5").sink = [] ∧
     (handle_temperature_command env0 emptyStore "x" "22.5").exn = none) ∧
    ((handle_status_command env0 emptyStore "7").store = emptyStore ∧
     (handle_status_command env0 emptyStore "7").broadcasts = [] ∧
     (handle_status_command env0 emptyStore "7").sink = [] ∧
     (handle_status_command env0 emptyStore "7").exn = none) ∧
    ((handle_message_command env0 emptyStore "a").store = emptyStore ∧
     (handle_message_command env0 emptyStore "a").broadcasts = [] ∧
     (handle_message_command env0 emptyStore "a").sink = [] ∧
     (handle_message_command env0 emptyStore "a").exn = none) ∧
    ((handle_message_command env0 emptyStore "/w==").store = emptyStore ∧
     (handle_message_command env0 emptyStore "/w==").broadcasts = [] ∧
     (handle_message_command env0 emptyStore "/w==").sink = [] ∧
     (handle_message_command env0 emptyStore "/w==").exn = some PyExn.unicodeDecodeError) :=
  ⟨(malformed_commands_amended env0 emptyStore).1 "x" "22.5" (Or.inl rfl),
   (malformed_commands_amended env0 emptyStore).2.1 "7"
     (by intro n hp; rw [show pyInt "7" = some 7 from rfl] at hp; cases hp; decide),
   (malformed_commands_amended env0 emptyStore).2.2.1 "a" rfl,
   (malformed_commands_amended env0 emptyStore).2.2.2 "/w==" [255] rfl rfl⟩

/-- C3: a well-formed status command is persisted iff the most recently
persisted status is absent or differs from the candidate; consequently
status(1) twice persists exactly one change and status(1), status(0),
status(1) persists three. -/
theorem status_dedup_iff (env : Env) (st : Store) (status : String) (n : Int)
    (hok : env.appendOk = true) (hp : pyInt status = some n) (hn : n = 0 ∨ n = 1) :
    (((get_current_status st).map StatusRec.value ≠
        some (if n = 1 then SValue.OPEN else SValue.CLOSED)) →
      (handle_status_command env st status).store.statuses =
        { value := if n = 1 then SValue.OPEN else SValue.CLOSED,
          modified_by := "BITS", timestamp := st.clock } :: st.statuses) ∧
    (((get_current_status st).map StatusRec.value =
        some (if n = 1 then SValue.OPEN else SValue.CLOSED)) →
      (handle_status_command env st status).store = st) ∧
    (statusSeq env emptyStore ["1", "1"]).statuses.length = 1 ∧
    (statusSeq env emptyStore ["1", "0", "1"]).statuses.length = 3 := by
  have hcase : ∀ s : Store, ∀ v : String, ∀ m : Int, pyInt v = some m → (m = 0 ∨ m = 1) →
      (handle_status_command env s v).store =
        if (get_current_status s).map StatusRec.value =
            some (if m = 1 then SValue.OPEN else SValue.CLOSED) then s
        else
          { s with
            statuses :=
              { value := if m = 1 then SValue.OPEN else SValue.CLOSED,
                modified_by := "BITS", timestamp := s.clock } :: s.statuses,
            clock := s.clock + 1 } := by
    intro s v m hpv hnv
    have hm : ¬ (m ≠ 0 ∧ m ≠ 1) := by rcases hnv with h | h <;> simp [h]
    cases hc : get_current_status s with
    | none => simp [handle_status_command, hpv, hm, hc, hok, log_status]
    | some c =>
      by_cases hv : c.value = (if m = 1 then SValue.OPEN else SValue.CLOSED)
      · simp [handle_status_command, hpv, hm, hc, hv, hok]
      · simp [handle_status_command, hpv, hm, hc, hv, hok, log_status]
  refine ⟨?_, ?_, ?_, ?_⟩
  · intro hne
    rw [hcase st status n hp hn, if_neg hne]
  · intro heq
    rw [hcase st status n hp hn, if_pos heq]
  · obtain ⟨ok, sf, ku⟩ := env
    have hok' : ok = true := hok
    subst hok'
    rfl
  · obtain ⟨ok, sf, ku⟩ := env
    have hok' : ok = true := hok
    subst hok'
    rfl

theorem status_dedup_iff_witness :
    ((get_current_status emptyStore).map StatusRec.value ≠
       some (if (1 : Int) = 1 then SValue.OPEN else SValue.CLOSED)) ∧
    (handle_status_command env0 emptyStore "1").store.statuses =
      [{ value := if (1 : Int) = 1 then SValue.OPEN else SValue.CLOSED,
         modified_by := "BITS", timestamp := emptyStore.clock }] ∧
    (statusSeq env0 emptyStore ["1", "1"]).statuses.length = 1 ∧
    (statusSeq env0 emptyStore ["1", "0", "1"]).statuses.length = 3 :=
  ⟨by decide,
   (status_dedup_iff env0 emptyStore "1" 1 rfl rfl (Or.inr rfl)).1 (by decide),
   (status_dedup_iff env0 emptyStore "1" 1 rfl rfl (Or.inr rfl)).2.2.1,
   (status_dedup_iff env0 emptyStore "1" 1 rfl rfl (Or.inr rfl)).2.2.2⟩

/-- C8: N submissions of status(1) against an initial CLOSED or empty
persisted state produce exactly one persisted OPEN transition.  The §5
concurrency contract (the read-decide-append block runs under a critical
section; the serialization mechanism lives outside the inspected sources)
makes every interleaving of the N concurrent submissions a serialization
of the N identical atomic blocks, which is the iteration `statusRepeat`. -/
theorem concurrent_status_single_open (env : Env) (st : Store) (n : Nat)
    (hok : env.appendOk = true) (hn : 1 ≤ n)
    (hinit : get_current_status st = none ∨
      (get_current_status st).map StatusRec.value = some SValue.CLOSED) :
    (statusRepeat env st n).statuses =
      { value := SValue.OPEN, modified_by := "BITS", timestamp := st.clock } :: st.statuses := by
  obtain ⟨m, rfl⟩ : ∃ m, n = m + 1 := ⟨n - 1, by omega⟩
  have hcur : ¬ (get_current_status st).map StatusRec.value = some SValue.OPEN := by
    rcases hinit with h | h <;> simp [h]
  have hstep : (handle_status_command env st "1").store =
      { st with
        statuses :=
          { value := SValue.OPEN, modified_by := "BITS", timestamp := st.clock } :: st.statuses,
        clock := st.clock + 1 } := by
    rw [handle_status_one_store env st hok, if_neg hcur]
  have hstable : statusRepeat env
      { st with
        statuses :=
          { value := SValue.OPEN, modified_by := "BITS", timestamp := st.clock } :: st.statuses,
        clock := st.clock + 1 } m =
      { st with
        statuses :=
          { value := SValue.OPEN, modified_by := "BITS", timestamp := st.clock } :: st.statuses,
        clock := st.clock + 1 } :=
    statusRepeat_stable env m _ hok (by simp [get_current_status])
  calc (statusRepeat env st (m + 1)).statuses
      = (statusRepeat env ((handle_status_command env st "1").store) m).statuses := rfl
    _ = ({ st with
            statuses :=
              { value := SValue.OPEN, modified_by := "BITS", timestamp := st.clock }
                :: st.statuses,
            clock := st.clock + 1 } : Store).statuses := by rw [hstep, hstable]
    _ = { value := SValue.OPEN, modified_by := "BITS", timestamp := st.clock }
          :: st.statuses := rfl

theorem concurrent_status_single_open_witness :
    (statusRepeat env0 emptyStore 5).statuses =
      [{ value := SValue.OPEN, modified_by := "BITS", timestamp := emptyStore.clock }] :=
  concurrent_status_single_open env0 emptyStore 5 rfl (by decide) (Or.inl rfl)

/-- C10: the administrative status change always toggles: it persists the
opposite of the current value, and CLOSED when no status was ever
persisted; the persisted value never equals the current one (so no
deduplication check is needed, and none is consulted). -/
theorem change_status_toggles (env : Env) (st : Store) (hok : env.appendOk = true) :
    (change_status env st).result.store.statuses =
      { value := change_status_target st, modified_by := "web", timestamp := st.clock }
        :: st.statuses ∧
    (get_current_status st = none → change_status_target st = SValue.CLOSED) ∧
    (∀ c, get_current_status st = some c →
      change_status_target st =
        (if c.value = SValue.CLOSED then SValue.OPEN else SValue.CLOSED) ∧
      change_status_target st ≠ c.value) := by
  refine ⟨?_, ?_, ?_⟩
  · simp [change_status, hok, log_status]
  · intro h; simp [change_status_target, h]
  · intro c h
    cases hv : c.value <;> simp [change_status_target, h, hv]

theorem change_status_toggles_witness :
    (change_status env0 emptyStore).result.store.statuses =
      [{ value := change_status_target emptyStore, modified_by := "web",
         timestamp := emptyStore.clock }] ∧
    change_status_target emptyStore = SValue.CLOSED :=
  ⟨(change_status_toggles env0 emptyStore rfl).1,
   (change_status_toggles env0 emptyStore rfl).2.1 rfl⟩

/-- C4: a failure of the External Notification Sink call is swallowed
inside the sink (spec §7) and therefore never changes the store, the
broadcasts, the logs, the exception outcome, the rendered admin page, or
which sink calls are attempted — for the status, message and sound
handlers and for the admin status-change path.  Only the delivery flag of
the attempted calls can differ. -/
theorem sink_failure_isolated (a b1 b2 : Bool) (k : List String) (st : Store)
    (status message soundid : String) :
    ((handle_status_command (Env.mk a b1 k) st status).store =
       (handle_status_command (Env.mk a b2 k) st status).store ∧
     (handle_status_command (Env.mk a b1 k) st status).broadcasts =
       (handle_status_command (Env.mk a b2 k) st status).broadcasts ∧
     (handle_status_command (Env.mk a b1 k) st status).logs =
       (handle_status_command (Env.mk a b2 k) st status).logs ∧
     (handle_status_command (Env.mk a b1 k) st status).exn =
       (handle_status_command (Env.mk a b2 k) st status).exn ∧
     (handle_status_command (Env.mk a b1 k) st status).sink.map SinkEvent.call =
       (handle_status_command (Env.mk a b2 k) st status).sink.map SinkEvent.call) ∧
    ((handle_message_command (Env.mk a b1 k) st message).store =
       (handle_message_command (Env.mk a b2 k) st message).store ∧
     (handle_message_command (Env.mk a b1 k) st message).broadcasts =
       (handle_message_command (Env.mk a b2 k) st message).broadcasts ∧
     (handle_message_command (Env.mk a b1 k) st message).logs =
       (handle_message_command (Env.mk a b2 k) st message).logs ∧
     (handle_message_command (Env.mk a b1 k) st message).exn =
       (handle_message_command (Env.mk a b2 k) st message).exn ∧
     (handle_message_command (Env.mk a b1 k) st message).sink.map SinkEvent.call =
       (handle_message_command (Env.mk a b2 k) st message).sink.map SinkEvent.call) ∧
    ((handle_sound_command (Env.mk a b1 k) st soundid).store =
       (handle_sound_command (Env.mk a b2 k) st soundid).store ∧
     (handle_sound_command (Env.mk a b1 k) st soundid).broadcasts =
       (handle_sound_command (Env.mk a b2 k) st soundid).broadcasts ∧
     (handle_sound_command (Env.mk a b1 k) st soundid).exn =
       (handle_sound_command (Env.mk a b2 k) st soundid).exn ∧
     (handle_sound_command (Env.mk a b1 k) st soundid).sink.map SinkEvent.call =
       (handle_sound_command (Env.mk a b2 k) st soundid).sink.map SinkEvent.call) ∧
    ((change_status (Env.mk a b1 k) st).result.store =
       (change_status (Env.mk a b2 k) st).result.store ∧
     (change_status (Env.mk a b1 k) st).result.broadcasts =
       (change_status (Env.mk a b2 k) st).result.broadcasts ∧
     (change_status (Env.mk a b1 k) st).result.exn =
       (change_status (Env.mk a b2 k) st).result.exn ∧
     (change_status (Env.mk a b1 k) st).rendered =
       (change_status (Env.mk a b2 k) st).rendered ∧
     (change_status (Env.mk a b1 k) st).result.sink.map SinkEvent.call =
       (change_status (Env.mk a b2 k) st).result.sink.map SinkEvent.call) := by
  refine ⟨?_, ?_, ?_, ?_⟩
  · cases hp : pyInt status with
    | none => simp [handle_status_command, hp]
    | some n =>
      simp only [handle_status_command, hp]
      split_ifs <;> simp [send_status]
  · cases hb : b64decode message with
    | none => simp [handle_message_command, hb]
    | some bs =>
      cases hu8 : utf8decode bs with
      | none => simp [handle_message_command, hb, hu8]
      | some text =>
        by_cases hm : "BITS" ∈ k
        · simp only [handle_message_command, hb, hu8, get_user, if_pos hm]
          split_ifs <;> simp [send_message]
        · simp [handle_message_command, hb, hu8, get_user, hm]
  · cases hp : pyInt soundid <;> simp [handle_sound_command, hp, send_sound]
  · simp only [change_status]
    split_ifs <;> simp [send_status]

end Bitsd
